import Mathlib

/-!
Shallow embedding of the ratsio NATS client core, covering the code in
src/nats_client/client.rs and src/net/connection.rs.  Machine integers are
modelled as Nat (no arithmetic in the embedded code overflows), fallible
code returns Option, and the two stateful loops (the liveness pinger and
the reconnect orchestrator) are modelled as explicit state-transition
functions.
-/

namespace Ratsio

/-! ### Data model (ops.rs vocabulary as used by the client) -/

/-- A NATS message, ops.rs Message: subject, subscription id, optional
reply-to, payload bytes. -/
structure Message where
  subject : String
  sid : String
  reply_to : Option String
  payload : List Nat
  deriving DecidableEq

/-- ops.rs Subscribe command: subject, subscription id, optional queue group. -/
structure Subscribe where
  subject : String
  sid : String
  queue_group : Option String
  deriving DecidableEq

/-- ops.rs UnSubscribe command: subscription id and optional max-messages. -/
structure UnSubscribe where
  sid : String
  max_msgs : Option Nat
  deriving DecidableEq

/-- ops.rs Publish command: subject, payload bytes, optional reply-to. -/
structure Publish where
  subject : String
  payload : List Nat
  reply_to : Option String
  deriving DecidableEq

/-- ops.rs ServerInfo, restricted to the fields the client reads:
max_payload, connect_urls and the JWT nonce. -/
structure ServerInfo where
  max_payload : Nat
  connect_urls : List String
  nonce : String
  deriving DecidableEq

/-- ops.rs Connect payload built by NatsClient::generate_connect
(client.rs:362-376). -/
structure Connect where
  verbose : Bool
  pedantic : Bool
  tls_required : Bool
  auth_token : Option String
  user : Option String
  pass : Option String
  name : Option String
  lang : String
  version : String
  protocol : Nat
  echo : Bool
  sig : Option String
  jwt : Option String
  deriving DecidableEq

/-- ops.rs Op: the frame alphabet routed by the multiplexer. -/
inductive Op where
  | CONNECT (c : Connect)
  | INFO (s : ServerInfo)
  | MSG (m : Message)
  | PUB (p : Publish)
  | SUB (s : Subscribe)
  | UNSUB (u : UnSubscribe)
  | PING
  | PONG
  | ERR (t : String)
  | CLOSE
  deriving DecidableEq

/-- error.rs RatsioError, restricted to the variants client.rs and
connection.rs construct or match on. -/
inductive RatsioError where
  | NoRouteToHostError
  | ServerDisconnected (s : String)
  | MaxPayloadOverflow (n : Nat)
  | SubscriptionReachedMaxMsgs (n : Nat)
  | InnerBrokenChain
  deriving DecidableEq

/-! ### Association-list model of the parking_lot HashMap registries -/

/-- Lookup in an association list, the model of HashMap::get. -/
def alookup {β : Type} : List (String × β) → String → Option β
  | [], _ => none
  | (k, v) :: rest, key => if k = key then some v else alookup rest key

/-- Removal from an association list, the model of HashMap::remove. -/
def aremove {β : Type} : List (String × β) → String → List (String × β)
  | [], _ => []
  | (k, v) :: rest, key =>
    if k = key then aremove rest key else (k, v) :: aremove rest key

/-- In-place update of one key, the model of HashMap::get_mut followed by a
field mutation. -/
def aadjust {β : Type} : List (String × β) → String → (β → β) → List (String × β)
  | [], _, _ => []
  | (k, v) :: rest, key, f =>
    if k = key then (k, f v) :: aadjust rest key f
    else (k, v) :: aadjust rest key f

/-- Insert-or-replace, the model of HashMap::insert. -/
def ainsert {β : Type} (m : List (String × β)) (key : String) (v : β) :
    List (String × β) :=
  (key, v) :: aremove m key

/-! ### Connection state (connection.rs) -/

/-- connection.rs:20-24 NatsConnectionState. -/
inductive NatsConnectionState where
  | Connected
  | Reconnecting
  | Disconnected
  deriving DecidableEq

/-- The pair guarded by the state lock of NatsConnection (connection.rs:35):
current phase and the connect version, which only increments on a
successful reconnect. -/
abbrev ConnState := NatsConnectionState × Nat

/-- connection.rs:150: create_connection installs the first transport with
state (Connected, 0). -/
def create_connection_state : ConnState := (NatsConnectionState.Connected, 0)

/-- The guarded decision of NatsConnection::trigger_reconnect
(connection.rs:83-97): given the version v0 read before taking the write
lock, either return without acting (none) or move the state to Disconnected
at unchanged version (some). -/
def trigger_step (v0 : Nat) (st : ConnState) : Option ConnState :=
  if st.1 = NatsConnectionState.Reconnecting then none
  else if st.1 = NatsConnectionState.Connected ∧ v0 < st.2 then none
  else some (NatsConnectionState.Disconnected, st.2)

/-- The guarded entry of NatsConnection::reconnect (connection.rs:103-110):
only a state observed as Disconnected is moved to Reconnecting; the Bool
records whether this caller became the owner of the reconnect attempt. -/
def reconnect_start (st : ConnState) : ConnState × Bool :=
  if st.1 = NatsConnectionState.Disconnected then
    ((NatsConnectionState.Reconnecting, st.2), true)
  else (st, false)

/-- NatsConnection::trigger_reconnect (connection.rs:80-99): the decision
step followed, when it acted, by the entry of reconnect. -/
def trigger_reconnect (v0 : Nat) (st : ConnState) : ConnState × Bool :=
  match trigger_step v0 st with
  | none => (st, false)
  | some st' => reconnect_start st'

/-- Completion of one reconnect attempt (connection.rs:116-138): on a
successful dial the transport is replaced and the state becomes
(Connected, v + 1); on failure the state becomes (Disconnected, v) and a
retry is scheduled. -/
def reconnect_finish (st : ConnState) (dial_ok : Bool) : ConnState :=
  if dial_ok then (NatsConnectionState.Connected, st.2 + 1)
  else (NatsConnectionState.Disconnected, st.2)

/-! ### publish (client.rs:392-404) -/

/-- NatsClient::publish: the emitted frames and the error returned to the
caller.  When server_info is known and the payload exceeds max_payload the
call fails with MaxPayloadOverflow and nothing reaches the sender;
otherwise exactly the PUB frame is handed to the sender. -/
def publish (server_info : Option ServerInfo) (cmd : Publish) :
    List Op × Option RatsioError :=
  match server_info with
  | some si =>
    if si.max_payload < cmd.payload.length then
      ([], some (RatsioError.MaxPayloadOverflow si.max_payload))
    else ([Op.PUB cmd], none)
  | none => ([Op.PUB cmd], none)

/-! ### Subscription registry and multiplexer (client.rs) -/

/-- The items pushed into a subscription's channel: a routed message, or the
CLOSE sentinel the consumer recognises as stream termination. -/
inductive SinkMessage where
  | Message (msg : Message)
  | CLOSE
  deriving DecidableEq

/-- client.rs SubscriptionSink: the subscribe command, the contents of the
sink's channel still pending on the consumer side, the optional max-messages
threshold recorded by unsubscribe, and the delivered-message count. -/
structure SubscriptionSink where
  cmd : Subscribe
  queue : List SinkMessage
  max_count : Option Nat
  count : Nat
  deriving DecidableEq

/-- The subscription registry subs_map, a HashMap from sid to sink. -/
abbrev SubsMap := List (String × SubscriptionSink)

/-- Registry effect of NatsClientMultiplexer::for_sid (client.rs:61-72):
insert a fresh sink with no max_count and zero count under the command's
sid, replacing any existing entry. -/
def for_sid_reg (m : SubsMap) (cmd : Subscribe) : SubsMap :=
  ainsert m cmd.sid { cmd := cmd, queue := [], max_count := none, count := 0 }

/-- Registry effect of NatsClient::unsubscribe (client.rs:413-417): when
max_msgs is given, record it as max_count on the existing sink; a no-op for
an unknown sid. -/
def unsubscribe_update (m : SubsMap) (cmd : UnSubscribe) : SubsMap :=
  match cmd.max_msgs with
  | some mx => aadjust m cmd.sid (fun s => { s with max_count := some mx })
  | none => m

/-- The demultiplexer routing step (client.rs:33-37): a MSG whose sid is
registered is pushed into that sink's channel; an unregistered sid is
dropped silently. -/
def demux_route (m : SubsMap) (msg : Message) : SubsMap :=
  match alookup m msg.sid with
  | some _ =>
    aadjust m msg.sid (fun s => { s with queue := s.queue ++ [SinkMessage.Message msg] })
  | none => m

/-- The per-message accounting step of the stream built by
NatsClient::subscribe (client.rs:438-456): under the registry write lock, an
existing sink with a max_count has its count incremented; when the
incremented count reaches max_count the entry is removed and some max_count
is returned, which turns this message into the terminal
SubscriptionReachedMaxMsgs error of the stream. -/
def subscribe_step (m : SubsMap) (sid : String) : SubsMap × Option Nat :=
  match alookup m sid with
  | some s =>
    match s.max_count with
    | some mc =>
      if mc ≤ s.count + 1 then (aremove m sid, some mc)
      else (aadjust m sid (fun t => { t with count := t.count + 1 }), none)
    | none => (m, none)
  | none => (m, none)

/-- Delivery of a list of inbound MSG frames through the demultiplexer and
the consumer stream of subscription sid, with prompt consumption: each frame
routed to sid passes the for_sid stream and then the accounting step of
subscribe.  Returns the final registry, the messages the user stream
yields, and its terminal error if any.  Frames for other sids are routed to
their own sinks by demux_route; frames for an unregistered sid are
dropped. -/
def runSubscription (sid : String) :
    SubsMap → List Message → SubsMap × List Message × Option RatsioError
  | m, [] => (m, [], none)
  | m, msg :: rest =>
    if msg.sid = sid then
      match alookup m sid with
      | none => runSubscription sid m rest
      | some _ =>
        let step := subscribe_step m sid
        match step.2 with
        | some mc => (step.1, [], some (RatsioError.SubscriptionReachedMaxMsgs mc))
        | none =>
          let r := runSubscription sid step.1 rest
          (r.1, msg :: r.2.1, r.2.2)
    else runSubscription sid (demux_route m msg) rest

/-- The consumer view built by for_sid (client.rs:74-85): the messages up to
the first CLOSE sentinel, and whether the stream has terminated (the
take_while stops at CLOSE, the filter_map keeps messages). -/
def consumeQueue : List SinkMessage → List Message × Bool
  | [] => ([], false)
  | SinkMessage.CLOSE :: _ => ([], true)
  | SinkMessage.Message m :: rest =>
    let r := consumeQueue rest
    (m :: r.1, r.2)

/-- The registry effect of the client-level reconnect-signal handler
(client.rs:213-262): when subscribe_on_reconnect is false every registered
sink receives the CLOSE sentinel and the registry is cleared; when it is
true the registry is kept and a SUB frame is replayed per entry.  Returns
the new registry, each sid paired with its channel contents after the
handler ran, and the replayed frames. -/
def reconnect_handler_step (subscribe_on_reconnect : Bool) (m : SubsMap) :
    SubsMap × List (String × List SinkMessage) × List Op :=
  if subscribe_on_reconnect then
    (m, m.map (fun p => (p.1, p.2.queue)), m.map (fun p => Op.SUB p.2.cmd))
  else
    ([], m.map (fun p => (p.1, p.2.queue ++ [SinkMessage.CLOSE])), [])

/-- Concrete subscribe command used by the evaluated instances below. -/
def subCmd1 : Subscribe := { subject := "x", sid := "s1", queue_group := none }

/-- Concrete sink for sid s1 with max_count 2 (the state after subscribe of
s1 followed by unsubscribe with max_msgs 2). -/
def sink1 : SubscriptionSink :=
  { cmd := subCmd1, queue := [], max_count := some 2, count := 0 }

/-- Concrete one-entry registry holding sink1 under sid s1. -/
def m1 : SubsMap := [("s1", sink1)]

/-- Concrete MSG frame number k for sid s1. -/
def msgS1 (k : Nat) : Message :=
  { subject := "x", sid := "s1", reply_to := none, payload := [k] }

/-- Three MSG frames for sid s1. -/
def frames3 : List Message := [msgS1 1, msgS1 2, msgS1 3]

/-! ### Liveness pinger (client.rs:193-210) -/

/-- client.rs NatsClientState (the client-level state, distinct from the
connection phase). -/
inductive NatsClientState where
  | Connecting
  | Connected
  | Reconnecting
  | Disconnected
  deriving DecidableEq

/-- The state read and written by one ping tick: the client state and the
outstanding-ping ConsistentCounter ping_attempts. -/
structure PingEnv where
  state : NatsClientState
  attempts : Nat
  deriving DecidableEq

/-- One tick of the ping interval task (client.rs:194-209).  While the
client state is Connected a PING is sent and the counter is incremented;
atomic_counter's inc returns the value previous to the increment and that
previous value is compared against ping_max_out; when it exceeds
ping_max_out the client state becomes Disconnected and a reconnect is
triggered.  Returns the new state, whether PING was sent, and whether a
reconnect was triggered. -/
def ping_tick (ping_max_out : Nat) (e : PingEnv) : PingEnv × Bool × Bool :=
  if e.state = NatsClientState.Connected then
    if ping_max_out < e.attempts then
      ({ state := NatsClientState.Disconnected, attempts := e.attempts + 1 }, true, true)
    else
      ({ e with attempts := e.attempts + 1 }, true, false)
  else (e, false, false)

/-- k consecutive ping ticks with no PING/PONG/INFO received in between (so
the counter is never reset), together with the total number of reconnects
triggered. -/
def ping_run (ping_max_out : Nat) : Nat → PingEnv → PingEnv × Nat
  | 0, e => (e, 0)
  | k + 1, e =>
    let r := ping_tick ping_max_out e
    let rest := ping_run ping_max_out k r.1
    (rest.1, (if r.2.2 then 1 else 0) + rest.2)

/-! ### CONNECT construction (client.rs:344-387) -/

/-- The user_jwt option: the JWT string and the nonce-signing callback
(UserJWT in the options module). -/
structure UserJwt where
  jwt : String
  signer : List Nat → Except String (List Nat)

/-- NatsClientOptions, restricted to the fields client.rs reads. -/
structure NatsClientOptions where
  cluster_uris : List String
  tls_required : Bool
  verbose : Bool
  pedantic : Bool
  echo : Bool
  auth_token : String
  username : String
  password : String
  name : String
  user_jwt : Option UserJwt
  ping_interval : Nat
  ping_max_out : Nat
  reconnect_timeout : Nat
  ensure_connect : Bool
  subscribe_on_reconnect : Bool

/-- The parts of the endpoint Url read by generate_connect: Url::username
(empty when absent) and Url::password (none when absent). -/
structure NodeUrl where
  username : String
  password : Option String

/-- str::as_bytes, the UTF-8 bytes of a string. -/
def strBytes (s : String) : List Nat := s.toUTF8.toList.map (fun b => b.toNat)

/-- The URL-safe base64 alphabet used by data_encoding BASE64URL_NOPAD. -/
def b64url_chars : List Char :=
  "ABCDEFGHIJKLMNOPQRSTUVWXYZabcdefghijklmnopqrstuvwxyz0123456789-_".toList

/-- One output character of the URL-safe base64 alphabet. -/
def b64c (n : Nat) : Char := b64url_chars.getD n 'A'

/-- The character stream of data_encoding BASE64URL_NOPAD: three input
bytes become four characters; a remainder of one or two bytes becomes two
or three characters and no padding is emitted. -/
def b64urlNopadAux : List Nat → List Char
  | [] => []
  | [b1] => [b64c (b1 / 4), b64c (b1 % 4 * 16)]
  | [b1, b2] => [b64c (b1 / 4), b64c (b1 % 4 * 16 + b2 / 16), b64c (b2 % 16 * 4)]
  | b1 :: b2 :: b3 :: rest =>
    b64c (b1 / 4) :: b64c (b1 % 4 * 16 + b2 / 16) :: b64c (b2 % 16 * 4 + b3 / 64)
      :: b64c (b3 % 64) :: b64urlNopadAux rest

/-- data_encoding BASE64URL_NOPAD.encode. -/
def base64urlNopad (bs : List Nat) : String := String.mk (b64urlNopadAux bs)

/-- Coercion of an empty configured string to an absent CONNECT field
(client.rs:345 not_empty used with Option::filter). -/
def filtNE (x : String) : Option String := if x.isEmpty then none else some x

/-- The jwt and sig fields of the CONNECT payload (client.rs:346-360): when
a user_jwt option is configured the jwt is taken from it before the signer
runs; the signer is then applied to the server nonce bytes and its output
base64url-encoded into sig, while a signer failure only logs and leaves sig
absent. -/
def jwt_sig_fields (opts : NatsClientOptions) (si : ServerInfo) :
    Option String × Option String :=
  match opts.user_jwt with
  | some jwtopt =>
    match jwtopt.signer (strBytes si.nonce) with
    | Except.ok sigbytes => (some jwtopt.jwt, some (base64urlNopad sigbytes))
    | Except.error _ => (some jwtopt.jwt, none)
  | none => (none, none)

/-- NatsClient::generate_connect (client.rs:344-387): builds the CONNECT
payload from the options, the received ServerInfo and the endpoint URL of
the current connection; empty auth_token/user/pass/name are coerced to
absent, protocol is the constant 1, and credentials embedded in the URL
override the configured user and pass (URL password when present, URL
username when non-empty). -/
def generate_connect (opts : NatsClientOptions) (si : ServerInfo) (url : NodeUrl) : Connect :=
  let js := jwt_sig_fields opts si
  let base : Connect :=
    { verbose := opts.verbose
      pedantic := opts.pedantic
      tls_required := opts.tls_required
      auth_token := filtNE opts.auth_token
      user := filtNE opts.username
      pass := filtNE opts.password
      name := filtNE opts.name
      lang := "rust"
      version := "0.2.0"
      protocol := 1
      echo := opts.echo
      sig := js.2
      jwt := js.1 }
  let withPass : Connect :=
    match url.password with
    | some p => { base with pass := some p }
    | none => base
  if url.username.isEmpty then withPass else { withPass with user := some url.username }

/-- Concrete user_jwt option whose signer succeeds with bytes 1, 2, 3. -/
def jwtW : UserJwt := { jwt := "JWT", signer := fun _ => Except.ok [1, 2, 3] }

/-- Concrete user_jwt option whose signer always fails. -/
def jwtBad : UserJwt :=
  { jwt := "JWT", signer := fun _ => Except.error "nonce signing failed" }

/-- Concrete ServerInfo with an empty nonce. -/
def siW : ServerInfo := { max_payload := 1048576, connect_urls := [], nonce := "" }

/-- Concrete endpoint URL with no embedded credentials. -/
def urlW : NodeUrl := { username := "", password := none }

/-- Concrete options with a succeeding user_jwt signer. -/
def optsW : NatsClientOptions :=
  { cluster_uris := ["127.0.0.1:4222"]
    tls_required := false
    verbose := false
    pedantic := false
    echo := true
    auth_token := ""
    username := "u"
    password := "p"
    name := ""
    user_jwt := some jwtW
    ping_interval := 2
    ping_max_out := 3
    reconnect_timeout := 1000
    ensure_connect := true
    subscribe_on_reconnect := true }

/-- Concrete options with a failing user_jwt signer. -/
def optsBad : NatsClientOptions := { optsW with user_jwt := some jwtBad }

/-! ### Multiplexer with explicit channels (client.rs:21-93) -/

/-- The multiplexer state with the sink channels made explicit: the next
fresh channel identity, the subs_map from sid to the identity of its
channel, and the contents of every channel. -/
structure MuxState where
  nextId : Nat
  subs : List (String × Nat)
  queues : Nat → List SinkMessage

/-- NatsClientMultiplexer::for_sid (client.rs:57-72) with channels explicit:
a fresh empty channel is allocated and registered under cmd.sid, replacing
any previous entry for that sid; the previous channel is left untouched (in
particular no CLOSE sentinel is pushed into it). -/
def for_sid (st : MuxState) (cmd : Subscribe) : MuxState × Nat :=
  ({ nextId := st.nextId + 1
     subs := ainsert st.subs cmd.sid st.nextId
     queues := fun i => if i = st.nextId then [] else st.queues i },
   st.nextId)

/-- The demultiplexer loop body (client.rs:31-45) on one frame, with
channels explicit: a MSG for a registered sid is appended to the channel the
registry currently maps that sid to, a MSG for an unknown sid is dropped,
and every other frame is forwarded to the control channel. -/
def demux_op (st : MuxState) (op : Op) : MuxState × Option Op :=
  match op with
  | Op.MSG msg =>
    (match alookup st.subs msg.sid with
     | some i =>
       { st with
         queues := fun j =>
           if j = i then st.queues j ++ [SinkMessage.Message msg] else st.queues j }
     | none => st,
     none)
  | op => (st, some op)

/-- Concrete multiplexer state: sid s1 is bound to channel 0 and channel 1
is the next fresh identity. -/
def st0 : MuxState := { nextId := 1, subs := [("s1", 0)], queues := fun _ => [] }

/-! ### Connection frame sink (connection.rs:250-294) -/

/-- The result of one poll of the inner sink. -/
inductive PollResult where
  | Pending
  | Ready (r : Option RatsioError)
  deriving DecidableEq

/-- NatsConnSinkStream::start_send (connection.rs:253-272).  Arguments model
the state read through the locks: the connection phase, whether the state
lock could be read and the inner lock written (try_read/try_write), the
inner transport's own start_send outcome, the transport's outbound buffer
and the submitted frame.  Returns the new buffer, the result surfaced to
the caller and whether the reconnect trigger fired.  When the phase is not
Connected (or the state lock is busy) the code returns Ok(()) without
touching the transport, so the frame goes nowhere. -/
def sink_start_send (phase : NatsConnectionState) (state_readable inner_writable : Bool)
    (inner_result : Option RatsioError) (buf : List Op) (item : Op) :
    List Op × Option RatsioError × Bool :=
  if state_readable = false ∨ phase ≠ NatsConnectionState.Connected then
    (buf, none, false)
  else if inner_writable = false then
    (buf, none, false)
  else
    match inner_result with
    | some (RatsioError.ServerDisconnected _) => (buf, none, true)
    | some e => (buf, some e, false)
    | none => (buf ++ [item], none, false)

/-- NatsConnSinkStream::poll_flush (connection.rs:274-293): Pending while
the phase is not Connected or a lock is busy; a ServerDisconnected from the
inner sink fires the reconnect trigger and is swallowed into Pending. -/
def sink_poll_flush (phase : NatsConnectionState) (state_readable inner_writable : Bool)
    (inner_poll : PollResult) : PollResult × Bool :=
  if state_readable = false ∨ phase ≠ NatsConnectionState.Connected then
    (PollResult.Pending, false)
  else if inner_writable = false then
    (PollResult.Pending, false)
  else
    match inner_poll with
    | PollResult.Ready (some (RatsioError.ServerDisconnected _)) => (PollResult.Pending, true)
    | r => (r, false)

/-! ### Theorems -/

/-- Unfolding of one tick when the client is Connected and the counter is
within ping_max_out. -/
theorem ping_tick_connected_low (pmo : Nat) (e : PingEnv)
    (h : e.state = NatsClientState.Connected) (hl : ¬pmo < e.attempts) :
    ping_tick pmo e = ({ e with attempts := e.attempts + 1 }, true, false) := by
  unfold ping_tick
  rw [if_pos h, if_neg hl]

/-- Unfolding of one tick when the client is Connected and the counter
already exceeds ping_max_out. -/
theorem ping_tick_connected_high (pmo : Nat) (e : PingEnv)
    (h : e.state = NatsClientState.Connected) (hl : pmo < e.attempts) :
    ping_tick pmo e =
      ({ state := NatsClientState.Disconnected, attempts := e.attempts + 1 }, true, true) := by
  unfold ping_tick
  rw [if_pos h, if_pos hl]

/-- Unfolding of one step of ping_run. -/
theorem ping_run_succ (pmo k : Nat) (e : PingEnv) :
    ping_run pmo (k + 1) e =
      ((ping_run pmo k (ping_tick pmo e).1).1,
       (if (ping_tick pmo e).2.2 then 1 else 0) + (ping_run pmo k (ping_tick pmo e).1).2) :=
  rfl

/-- Ticks do nothing once the client state has left Connected. -/
theorem ping_run_not_connected (pmo : Nat) : ∀ (k : Nat) (e : PingEnv),
    e.state ≠ NatsClientState.Connected → ping_run pmo k e = (e, 0) := by
  intro k
  induction k with
  | zero => intro e _; rfl
  | succ k ih =>
    intro e h
    have htick : ping_tick pmo e = (e, false, false) := by
      unfold ping_tick
      rw [if_neg h]
    rw [ping_run_succ, htick]
    dsimp only
    rw [ih e h]
    simp

/-- Closed form for a run of consecutive unacknowledged ticks started in the
Connected state with counter a: the state flips to Disconnected, and one
reconnect is triggered, exactly when some tick sees a pre-increment counter
above ping_max_out. -/
theorem ping_run_spec (pmo : Nat) : ∀ (k a : Nat),
    (ping_run pmo k { state := NatsClientState.Connected, attempts := a }).1.state =
      (if 1 ≤ k ∧ pmo + 2 ≤ k + a then NatsClientState.Disconnected
       else NatsClientState.Connected) ∧
    (ping_run pmo k { state := NatsClientState.Connected, attempts := a }).2 =
      (if 1 ≤ k ∧ pmo + 2 ≤ k + a then 1 else 0) := by
  intro k
  induction k with
  | zero =>
    intro a
    have h : ¬(1 ≤ 0 ∧ pmo + 2 ≤ 0 + a) := by omega
    rw [if_neg h, if_neg h]
    exact ⟨rfl, rfl⟩
  | succ k ih =>
    intro a
    by_cases hlt : pmo < a
    · have h1 : 1 ≤ k + 1 ∧ pmo + 2 ≤ k + 1 + a := by omega
      rw [if_pos h1, if_pos h1, ping_run_succ,
        ping_tick_connected_high pmo { state := NatsClientState.Connected, attempts := a }
          rfl hlt]
      dsimp only
      rw [ping_run_not_connected pmo k
        { state := NatsClientState.Disconnected, attempts := a + 1 } (by simp)]
      exact ⟨rfl, rfl⟩
    · have hcond : (1 ≤ k + 1 ∧ pmo + 2 ≤ k + 1 + a) ↔ (1 ≤ k ∧ pmo + 2 ≤ k + (a + 1)) := by
        omega
      rw [ping_run_succ,
        ping_tick_connected_low pmo { state := NatsClientState.Connected, attempts := a }
          rfl hlt]
      dsimp only
      rcases ih (a + 1) with ⟨ihs, iht⟩
      constructor
      · rw [ihs]
        by_cases hc : 1 ≤ k ∧ pmo + 2 ≤ k + (a + 1)
        · rw [if_pos hc, if_pos (hcond.mpr hc)]
        · rw [if_neg hc, if_neg (fun h => hc (hcond.mp h))]
      · rw [iht]
        by_cases hc : 1 ≤ k ∧ pmo + 2 ≤ k + (a + 1)
        · rw [if_pos hc, if_pos (hcond.mpr hc)]; decide
        · rw [if_neg hc, if_neg (fun h => hc (hcond.mp h))]; decide

/-- C3 counterexample: with ping_max_out = 2, the third consecutive tick has
post-increment counter 3, which exceeds 2, yet the client state stays
Connected and no reconnect is triggered; after three unacknowledged pings
from a zero counter the client is still Connected with zero reconnects,
contradicting the claim. -/
theorem ping_counterexample :
    (ping_tick 2 { state := NatsClientState.Connected, attempts := 2 }).1.attempts = 3 ∧
    2 < 3 ∧
    (ping_tick 2 { state := NatsClientState.Connected, attempts := 2 }).1.state =
      NatsClientState.Connected ∧
    (ping_tick 2 { state := NatsClientState.Connected, attempts := 2 }).2.2 = false ∧
    (ping_run 2 3 { state := NatsClientState.Connected, attempts := 0 }).1.state =
      NatsClientState.Connected ∧
    (ping_run 2 3 { state := NatsClientState.Connected, attempts := 0 }).2 = 0 := by
  decide

/-- C3 (amended): while Connected, each tick sends PING and increments the
counter, and the transition to Disconnected together with the reconnect
trigger happens exactly when the pre-increment counter value exceeds
ping_max_out; hence, starting from a zero counter, the client becomes
Disconnected exactly when at least ping_max_out + 2 consecutive
unacknowledged ticks have run (four ticks for ping_max_out = 2), and the
reconnect is then triggered exactly once. -/
theorem ping_tick_spec (pmo k : Nat) (e : PingEnv)
    (h : e.state = NatsClientState.Connected) :
    (ping_tick pmo e).2.1 = true ∧
    (ping_tick pmo e).1.attempts = e.attempts + 1 ∧
    ((ping_tick pmo e).1.state = NatsClientState.Disconnected ↔ pmo < e.attempts) ∧
    ((ping_tick pmo e).2.2 = true ↔ pmo < e.attempts) ∧
    ((ping_run pmo k { state := NatsClientState.Connected, attempts := 0 }).1.state =
        NatsClientState.Disconnected ↔ pmo + 2 ≤ k) ∧
    (ping_run pmo k { state := NatsClientState.Connected, attempts := 0 }).2 =
      (if pmo + 2 ≤ k then 1 else 0) := by
  have hiff : (1 ≤ k ∧ pmo + 2 ≤ k + 0) ↔ pmo + 2 ≤ k := by omega
  rcases ping_run_spec pmo k 0 with ⟨hs, ht⟩
  refine ⟨?_, ?_, ?_, ?_, ?_, ?_⟩
  · unfold ping_tick; rw [if_pos h]; by_cases hlt : pmo < e.attempts
    · rw [if_pos hlt]
    · rw [if_neg hlt]
  · unfold ping_tick; rw [if_pos h]; by_cases hlt : pmo < e.attempts
    · rw [if_pos hlt]
    · rw [if_neg hlt]
  · unfold ping_tick; rw [if_pos h]; by_cases hlt : pmo < e.attempts
    · rw [if_pos hlt]; simpa using hlt
    · rw [if_neg hlt]
      simp only [h]
      exact ⟨fun hc => absurd hc (by simp), fun hc => absurd hc hlt⟩
  · unfold ping_tick; rw [if_pos h]; by_cases hlt : pmo < e.attempts
    · rw [if_pos hlt]; simpa using hlt
    · rw [if_neg hlt]; simpa using hlt
  · rw [hs]
    by_cases hc : pmo + 2 ≤ k
    · rw [if_pos (hiff.mpr hc)]; simpa using hc
    · rw [if_neg (fun hx => hc (hiff.mp hx))]
      exact ⟨fun hx => absurd hx (by simp), fun hx => absurd hx hc⟩
  · rw [ht]
    by_cases hc : pmo + 2 ≤ k
    · rw [if_pos (hiff.mpr hc), if_pos hc]
    · rw [if_neg (fun hx => hc (hiff.mp hx)), if_neg hc]

/-- Witness for ping_tick_spec at ping_max_out 2, a tick whose pre-increment
counter is 3, and a run of four ticks from a zero counter. -/
theorem ping_tick_spec_witness :
    (ping_tick 2 { state := NatsClientState.Connected, attempts := 3 }).2.1 = true ∧
    (ping_tick 2 { state := NatsClientState.Connected, attempts := 3 }).1.attempts = 3 + 1 ∧
    ((ping_tick 2 { state := NatsClientState.Connected, attempts := 3 }).1.state =
      NatsClientState.Disconnected ↔ 2 < 3) ∧
    ((ping_tick 2 { state := NatsClientState.Connected, attempts := 3 }).2.2 = true ↔ 2 < 3) ∧
    ((ping_run 2 4 { state := NatsClientState.Connected, attempts := 0 }).1.state =
        NatsClientState.Disconnected ↔ 2 + 2 ≤ 4) ∧
    (ping_run 2 4 { state := NatsClientState.Connected, attempts := 0 }).2 =
      (if 2 + 2 ≤ 4 then 1 else 0) :=
  ping_tick_spec 2 4 { state := NatsClientState.Connected, attempts := 3 } rfl

/-- C5: a publish whose payload exceeds the known max_payload fails with
MaxPayloadOverflow(max_payload) and emits zero frames on the transport;
otherwise the PUB frame is enqueued and no error is returned. -/
theorem publish_spec (si : ServerInfo) (cmd : Publish) :
    (si.max_payload < cmd.payload.length →
      publish (some si) cmd = ([], some (RatsioError.MaxPayloadOverflow si.max_payload))) ∧
    (¬ si.max_payload < cmd.payload.length →
      publish (some si) cmd = ([Op.PUB cmd], none)) ∧
    publish none cmd = ([Op.PUB cmd], none) := by
  refine ⟨fun h => ?_, fun h => ?_, rfl⟩ <;> simp [publish, h]

/-- Witness for publish_spec: with max_payload 4, a 5-byte payload is
rejected with no frame emitted, and a 2-byte payload is sent. -/
theorem publish_spec_witness :
    publish (some { max_payload := 4, connect_urls := [], nonce := "" })
        { subject := "a", payload := [0, 0, 0, 0, 0], reply_to := none } =
      ([], some (RatsioError.MaxPayloadOverflow 4)) ∧
    publish (some { max_payload := 4, connect_urls := [], nonce := "" })
        { subject := "a", payload := [1, 2], reply_to := none } =
      ([Op.PUB { subject := "a", payload := [1, 2], reply_to := none }], none) := by
  constructor
  · exact (publish_spec { max_payload := 4, connect_urls := [], nonce := "" }
      { subject := "a", payload := [0, 0, 0, 0, 0], reply_to := none }).1 (by decide)
  · exact (publish_spec { max_payload := 4, connect_urls := [], nonce := "" }
      { subject := "a", payload := [1, 2], reply_to := none }).2.1 (by decide)

/-- C6: the connection version is incremented exactly on successful
(re)connection: a completed reconnect that installs a new transport sets the
version to its previous value plus one, a failed attempt leaves it
unchanged, the version never decreases, the trigger path never changes it,
and the initial connection starts it at zero. -/
theorem version_increment_on_reconnect (st : ConnState) (b : Bool) (v0 : Nat) :
    (b = true → reconnect_finish st b = (NatsConnectionState.Connected, st.2 + 1)) ∧
    (b = false → reconnect_finish st b = (NatsConnectionState.Disconnected, st.2)) ∧
    st.2 ≤ (reconnect_finish st b).2 ∧
    (trigger_reconnect v0 st).1.2 = st.2 ∧
    create_connection_state.2 = 0 := by
  refine ⟨fun hb => ?_, fun hb => ?_, ?_, ?_, rfl⟩
  · simp [reconnect_finish, hb]
  · simp [reconnect_finish, hb]
  · cases b <;> simp [reconnect_finish]
  · unfold trigger_reconnect
    rcases hts : trigger_step v0 st with _ | st'
    · rfl
    · have hst' : st' = (NatsConnectionState.Disconnected, st.2) := by
        unfold trigger_step at hts
        split at hts
        · exact absurd hts (by simp)
        · split at hts
          · exact absurd hts (by simp)
          · exact (Option.some.inj hts).symm
      subst hst'
      simp [reconnect_start]

/-- Witness for version_increment_on_reconnect at the Connected state of
version 5: success bumps the version to 6, and triggering from version 5
keeps the version at 5. -/
theorem version_increment_witness :
    reconnect_finish (NatsConnectionState.Connected, 5) true =
      (NatsConnectionState.Connected, 6) ∧
    (trigger_reconnect 5 (NatsConnectionState.Connected, 5)).1.2 = 5 :=
  ⟨(version_increment_on_reconnect (NatsConnectionState.Connected, 5) true 5).1 rfl,
   (version_increment_on_reconnect (NatsConnectionState.Connected, 5) true 5).2.2.2.1⟩

/-- C7: the reconnect trigger that observes phase Reconnecting returns
without acting; one that observes Connected at a version strictly greater
than the version v0 it first read returns without acting; otherwise the
state passes through Disconnected (the decision step) before the single
owner moves it to Reconnecting. -/
theorem trigger_reconnect_single_owner (v0 : Nat) (st : ConnState) :
    (st.1 = NatsConnectionState.Reconnecting → trigger_reconnect v0 st = (st, false)) ∧
    (st.1 = NatsConnectionState.Connected → v0 < st.2 →
      trigger_reconnect v0 st = (st, false)) ∧
    (st.1 ≠ NatsConnectionState.Reconnecting →
      ¬(st.1 = NatsConnectionState.Connected ∧ v0 < st.2) →
      trigger_step v0 st = some (NatsConnectionState.Disconnected, st.2) ∧
      trigger_reconnect v0 st = ((NatsConnectionState.Reconnecting, st.2), true)) := by
  refine ⟨fun h => ?_, fun h hv => ?_, fun h hnc => ?_⟩
  · simp [trigger_reconnect, trigger_step, h]
  · simp [trigger_reconnect, trigger_step, h, hv]
  · have hstep : trigger_step v0 st = some (NatsConnectionState.Disconnected, st.2) := by
      simp [trigger_step, h, hnc]
    exact ⟨hstep, by simp [trigger_reconnect, hstep, reconnect_start]⟩

/-- Witness for trigger_reconnect_single_owner: a Reconnecting state is left
alone, a Connected state of version 1 observed after reading version 0 is
left alone, and a Disconnected state is taken through the decision step to
Reconnecting by a single owner. -/
theorem trigger_reconnect_single_owner_witness :
    trigger_reconnect 0 (NatsConnectionState.Reconnecting, 5) =
      ((NatsConnectionState.Reconnecting, 5), false) ∧
    trigger_reconnect 0 (NatsConnectionState.Connected, 1) =
      ((NatsConnectionState.Connected, 1), false) ∧
    (trigger_step 0 (NatsConnectionState.Disconnected, 3) =
      some (NatsConnectionState.Disconnected, 3) ∧
     trigger_reconnect 0 (NatsConnectionState.Disconnected, 3) =
      ((NatsConnectionState.Reconnecting, 3), true)) :=
  ⟨(trigger_reconnect_single_owner 0 (NatsConnectionState.Reconnecting, 5)).1 rfl,
   (trigger_reconnect_single_owner 0 (NatsConnectionState.Connected, 1)).2.1 rfl (by decide),
   (trigger_reconnect_single_owner 0 (NatsConnectionState.Disconnected, 3)).2.2
     (by decide) (by decide)⟩

/-- Looking up a removed key yields nothing. -/
theorem alookup_aremove_self {β : Type} (m : List (String × β)) (k : String) :
    alookup (aremove m k) k = none := by
  induction m with
  | nil => rfl
  | cons p rest ih =>
    rcases p with ⟨k1, v1⟩
    unfold aremove
    by_cases h : k1 = k
    · rw [if_pos h]; exact ih
    · rw [if_neg h]
      unfold alookup
      rw [if_neg h]
      exact ih

/-- Looking up an adjusted key maps the adjustment over the previous
value. -/
theorem alookup_aadjust_self {β : Type} (m : List (String × β)) (k : String) (f : β → β) :
    alookup (aadjust m k f) k = (alookup m k).map f := by
  induction m with
  | nil => rfl
  | cons p rest ih =>
    rcases p with ⟨k1, v1⟩
    by_cases h : k1 = k
    · simp [aadjust, alookup, h]
    · simp [aadjust, alookup, h, ih]

/-- Looking up an inserted key yields the inserted value. -/
theorem alookup_ainsert_self {β : Type} (m : List (String × β)) (k : String) (v : β) :
    alookup (ainsert m k v) k = some v := by
  simp [ainsert, alookup]

/-- A successful lookup is a membership. -/
theorem alookup_mem {β : Type} :
    ∀ (m : List (String × β)) (k : String) (v : β), alookup m k = some v → (k, v) ∈ m := by
  intro m
  induction m with
  | nil => intro k v h; cases h
  | cons p rest ih =>
    intro k v h
    rcases p with ⟨k1, v1⟩
    unfold alookup at h
    by_cases hk : k1 = k
    · rw [if_pos hk] at h
      obtain rfl := Option.some.inj h
      subst hk
      exact List.mem_cons_self _ _
    · rw [if_neg hk] at h
      exact List.mem_cons_of_mem _ (ih k v h)

/-- Unfolding of subscribe_step when the incremented count reaches
max_count. -/
theorem subscribe_step_hit_max (m : SubsMap) (sid : String) (s : SubscriptionSink) (n : Nat)
    (hs : alookup m sid = some s) (hmc : s.max_count = some n) (h : n ≤ s.count + 1) :
    subscribe_step m sid = (aremove m sid, some n) := by
  simp [subscribe_step, hs, hmc, h]

/-- Unfolding of subscribe_step when the incremented count stays below
max_count. -/
theorem subscribe_step_below (m : SubsMap) (sid : String) (s : SubscriptionSink) (n : Nat)
    (hs : alookup m sid = some s) (hmc : s.max_count = some n) (h : ¬n ≤ s.count + 1) :
    subscribe_step m sid =
      (aadjust m sid (fun t => { t with count := t.count + 1 }), none) := by
  simp [subscribe_step, hs, hmc, h]

/-- Unfolding of runSubscription on a frame that makes the sink reach its
max_count. -/
theorem runSubscription_cons_term (sid : String) (msg : Message) (rest : List Message)
    (m m' : SubsMap) (s : SubscriptionSink) (n : Nat)
    (hsid : msg.sid = sid) (hs : alookup m sid = some s)
    (hstep : subscribe_step m sid = (m', some n)) :
    runSubscription sid m (msg :: rest) =
      (m', [], some (RatsioError.SubscriptionReachedMaxMsgs n)) := by
  unfold runSubscription
  rw [if_pos hsid, hs, hstep]

/-- Unfolding of runSubscription on a frame that keeps the sink below its
max_count: the message is yielded and delivery continues. -/
theorem runSubscription_cons_cont (sid : String) (msg : Message) (rest : List Message)
    (m m' : SubsMap) (s : SubscriptionSink)
    (hsid : msg.sid = sid) (hs : alookup m sid = some s)
    (hstep : subscribe_step m sid = (m', none)) :
    runSubscription sid m (msg :: rest) =
      ((runSubscription sid m' rest).1,
       msg :: (runSubscription sid m' rest).2.1,
       (runSubscription sid m' rest).2.2) := by
  conv_lhs => unfold runSubscription
  rw [if_pos hsid, hs, hstep]

/-- Delivery of at least max_count − count frames to a sink whose max_count
is set: the stream yields one message fewer than the remaining allowance,
ends with the SubscriptionReachedMaxMsgs error, and the registry entry is
gone. -/
theorem runSubscription_maxcount (sid : String) (n : Nat) :
    ∀ (frames : List Message) (m : SubsMap) (s : SubscriptionSink),
      alookup m sid = some s → s.max_count = some n → s.count < n →
      n - s.count ≤ frames.length → (∀ f ∈ frames, f.sid = sid) →
      (runSubscription sid m frames).2.1.length = n - s.count - 1 ∧
      (runSubscription sid m frames).2.2 = some (RatsioError.SubscriptionReachedMaxMsgs n) ∧
      alookup (runSubscription sid m frames).1 sid = none := by
  intro frames
  induction frames with
  | nil =>
    intro m s _ _ hlt hlen _
    exfalso
    simp only [List.length_nil, Nat.le_zero] at hlen
    omega
  | cons msg rest ih =>
    intro m s hs hmc hlt hlen hall
    have hsid : msg.sid = sid := hall msg (List.mem_cons_self _ _)
    have hlen' : n - s.count ≤ rest.length + 1 := by
      simpa [List.length_cons] using hlen
    by_cases hmax : n ≤ s.count + 1
    · have hstep := subscribe_step_hit_max m sid s n hs hmc hmax
      rw [runSubscription_cons_term sid msg rest m (aremove m sid) s n hsid hs hstep]
      refine ⟨?_, rfl, alookup_aremove_self m sid⟩
      simp only [List.length_nil]
      omega
    · have hstep := subscribe_step_below m sid s n hs hmc hmax
      rw [runSubscription_cons_cont sid msg rest m _ s hsid hs hstep]
      have hs' : alookup (aadjust m sid (fun t => { t with count := t.count + 1 })) sid
          = some { s with count := s.count + 1 } := by
        rw [alookup_aadjust_self, hs]
        rfl
      have hc' : ({ s with count := s.count + 1 } : SubscriptionSink).count < n := by
        show s.count + 1 < n
        omega
      have hl' : n - ({ s with count := s.count + 1 } : SubscriptionSink).count ≤ rest.length := by
        show n - (s.count + 1) ≤ rest.length
        omega
      obtain ⟨hlen1, herr, hlook⟩ :=
        ih _ { s with count := s.count + 1 } hs' hmc hc' hl'
          (fun f hf => hall f (List.mem_cons_of_mem _ hf))
      have hlen1' :
          (runSubscription sid
            (aadjust m sid (fun t => { t with count := t.count + 1 })) rest).2.1.length
            = n - (s.count + 1) - 1 := hlen1
      refine ⟨?_, herr, hlook⟩
      rw [List.length_cons, hlen1']
      omega

/-- C1 counterexample: subscription s1 with max_count 2 and three delivered
MSG frames.  The user stream yields one message, not two: the second
delivered message is consumed by the accounting step and replaced by the
terminal SubscriptionReachedMaxMsgs(2) error, so the claim that exactly
max_count messages are yielded is false on this input. -/
theorem subscription_two_max_yields_one :
    (runSubscription "s1" m1 frames3).2.1 = [msgS1 1] ∧
    ¬(runSubscription "s1" m1 frames3).2.1.length = 2 ∧
    (runSubscription "s1" m1 frames3).2.2 =
      some (RatsioError.SubscriptionReachedMaxMsgs 2) ∧
    (runSubscription "s1" m1 frames3).1 = [] := by
  decide

/-- C1 (amended): for a subscription whose max_count has been set to n ≥ 1
by unsubscribe with max_msgs = n while the delivered count is zero, the
delivery of at least n MSG frames for that sid makes the user stream yield
exactly n − 1 messages and then terminate with SubscriptionReachedMaxMsgs(n)
(the n-th delivered message is consumed by the accounting and replaced by
the terminal error), and the registry entry is removed when the delivered
count reaches max_count. -/
theorem subscription_max_msgs (m0 : SubsMap) (cmd : Subscribe) (n : Nat)
    (frames : List Message) (hn : 0 < n) (hlen : n ≤ frames.length)
    (hall : ∀ f ∈ frames, f.sid = cmd.sid) :
    (runSubscription cmd.sid
        (unsubscribe_update (for_sid_reg m0 cmd) { sid := cmd.sid, max_msgs := some n })
        frames).2.1.length = n - 1 ∧
    (runSubscription cmd.sid
        (unsubscribe_update (for_sid_reg m0 cmd) { sid := cmd.sid, max_msgs := some n })
        frames).2.2 = some (RatsioError.SubscriptionReachedMaxMsgs n) ∧
    alookup (runSubscription cmd.sid
        (unsubscribe_update (for_sid_reg m0 cmd) { sid := cmd.sid, max_msgs := some n })
        frames).1 cmd.sid = none := by
  have hs : alookup
      (unsubscribe_update (for_sid_reg m0 cmd) { sid := cmd.sid, max_msgs := some n })
      cmd.sid = some { cmd := cmd, queue := [], max_count := some n, count := 0 } := by
    unfold unsubscribe_update for_sid_reg
    rw [alookup_aadjust_self, alookup_ainsert_self]
    rfl
  exact runSubscription_maxcount cmd.sid n frames _ _ hs rfl hn (by omega) hall

/-- Witness for subscription_max_msgs: subscribe s1, unsubscribe with
max_msgs 2, deliver three frames. -/
theorem subscription_max_msgs_witness :
    (runSubscription subCmd1.sid
        (unsubscribe_update (for_sid_reg [] subCmd1) { sid := subCmd1.sid, max_msgs := some 2 })
        frames3).2.1.length = 2 - 1 ∧
    (runSubscription subCmd1.sid
        (unsubscribe_update (for_sid_reg [] subCmd1) { sid := subCmd1.sid, max_msgs := some 2 })
        frames3).2.2 = some (RatsioError.SubscriptionReachedMaxMsgs 2) ∧
    alookup (runSubscription subCmd1.sid
        (unsubscribe_update (for_sid_reg [] subCmd1) { sid := subCmd1.sid, max_msgs := some 2 })
        frames3).1 subCmd1.sid = none :=
  subscription_max_msgs [] subCmd1 2 frames3 (by decide) (by decide) (by decide)

/-- A channel whose contents end with the CLOSE sentinel always terminates
its consumer stream. -/
theorem consumeQueue_close (q : List SinkMessage) :
    (consumeQueue (q ++ [SinkMessage.CLOSE])).2 = true := by
  induction q with
  | nil => rfl
  | cons x rest ih =>
    cases x with
    | CLOSE => rfl
    | Message msg => exact ih

/-- C9: when subscribe_on_reconnect is false, handling the reconnect signal
leaves the registry empty and pushes the CLOSE sentinel into every sink
registered at that moment, so each user stream terminates. -/
theorem reconnect_closes_all_subscriptions (m : SubsMap) :
    (reconnect_handler_step false m).1 = [] ∧
    ∀ p ∈ m,
      (p.1, p.2.queue ++ [SinkMessage.CLOSE]) ∈ (reconnect_handler_step false m).2.1 ∧
      (consumeQueue (p.2.queue ++ [SinkMessage.CLOSE])).2 = true := by
  refine ⟨rfl, fun p hp => ⟨?_, consumeQueue_close _⟩⟩
  show (p.1, p.2.queue ++ [SinkMessage.CLOSE])
      ∈ m.map (fun q => (q.1, q.2.queue ++ [SinkMessage.CLOSE]))
  exact List.mem_map_of_mem _ hp

/-- Witness for reconnect_closes_all_subscriptions on the one-entry registry
holding sink1 under s1. -/
theorem reconnect_closes_witness :
    (reconnect_handler_step false m1).1 = [] ∧
    (("s1", sink1.queue ++ [SinkMessage.CLOSE]) ∈ (reconnect_handler_step false m1).2.1 ∧
     (consumeQueue (sink1.queue ++ [SinkMessage.CLOSE])).2 = true) :=
  ⟨(reconnect_closes_all_subscriptions m1).1,
   (reconnect_closes_all_subscriptions m1).2 ("s1", sink1) (by decide)⟩

/-- The jwt and sig fields of the generated CONNECT are exactly those
computed by jwt_sig_fields: the URL credential overrides only touch user
and pass. -/
theorem generate_connect_jwt_sig_eq (opts : NatsClientOptions) (si : ServerInfo)
    (url : NodeUrl) :
    (generate_connect opts si url).jwt = (jwt_sig_fields opts si).1 ∧
    (generate_connect opts si url).sig = (jwt_sig_fields opts si).2 := by
  unfold generate_connect
  rcases hp : url.password with _ | p <;> by_cases hu : url.username.isEmpty <;>
    simp [hp, hu]

/-- C4 counterexample: with a configured user_jwt whose signer fails, the
CONNECT payload keeps the jwt field (taken before the signer ran) and only
the sig field is absent, so the claim that both jwt and sig are absent is
false on this input. -/
theorem connect_jwt_kept_on_signer_failure :
    (generate_connect optsBad siW urlW).jwt = some "JWT" ∧
    (generate_connect optsBad siW urlW).sig = none := by
  constructor <;> rfl

/-- C4 (amended): with a configured user_jwt, the CONNECT payload always
carries jwt; when the signer fails only sig is absent (and an error is
logged), and when the signer succeeds sig is the BASE64URL_NOPAD encoding
of the signer's output on the server nonce bytes. -/
theorem generate_connect_jwt_sig (opts : NatsClientOptions) (si : ServerInfo)
    (url : NodeUrl) (j : UserJwt) (hj : opts.user_jwt = some j) :
    (generate_connect opts si url).jwt = some j.jwt ∧
    (∀ e, j.signer (strBytes si.nonce) = Except.error e →
      (generate_connect opts si url).sig = none) ∧
    (∀ bs, j.signer (strBytes si.nonce) = Except.ok bs →
      (generate_connect opts si url).sig = some (base64urlNopad bs)) := by
  obtain ⟨hjwt, hsig⟩ := generate_connect_jwt_sig_eq opts si url
  refine ⟨?_, fun e he => ?_, fun bs hb => ?_⟩
  · rw [hjwt]
    unfold jwt_sig_fields
    rw [hj]
    rcases hsr : j.signer (strBytes si.nonce) with e1 | bs1 <;> simp [hsr]
  · rw [hsig]
    unfold jwt_sig_fields
    rw [hj]
    simp [he]
  · rw [hsig]
    unfold jwt_sig_fields
    rw [hj]
    simp [hb]

/-- Witness for generate_connect_jwt_sig: the succeeding signer yields sig
= BASE64URL_NOPAD([1, 2, 3]) and jwt is kept. -/
theorem generate_connect_jwt_sig_witness :
    (generate_connect optsW siW urlW).jwt = some jwtW.jwt ∧
    (generate_connect optsW siW urlW).sig = some (base64urlNopad [1, 2, 3]) :=
  ⟨(generate_connect_jwt_sig optsW siW urlW jwtW rfl).1,
   (generate_connect_jwt_sig optsW siW urlW jwtW rfl).2.2 [1, 2, 3] rfl⟩

/-- C8: the CONNECT payload has protocol constantly 1; auth_token and name
are absent exactly when the configured strings are empty; pass is the URL
password when one is present and otherwise the configured password coerced
to absent when empty; user is the URL username when non-empty and otherwise
the configured username coerced to absent when empty. -/
theorem connect_fields (opts : NatsClientOptions) (si : ServerInfo) (url : NodeUrl) :
    (generate_connect opts si url).protocol = 1 ∧
    (generate_connect opts si url).auth_token =
      (if opts.auth_token.isEmpty then none else some opts.auth_token) ∧
    (generate_connect opts si url).name =
      (if opts.name.isEmpty then none else some opts.name) ∧
    (generate_connect opts si url).pass =
      (match url.password with
       | some p => some p
       | none => if opts.password.isEmpty then none else some opts.password) ∧
    (generate_connect opts si url).user =
      (if url.username.isEmpty then
        (if opts.username.isEmpty then none else some opts.username)
       else some url.username) := by
  unfold generate_connect
  rcases hp : url.password with _ | p <;> by_cases hu : url.username.isEmpty <;>
    simp [hp, hu, filtNE]

/-- C10: for_sid on a sid that is already registered silently replaces the
registry entry with the fresh channel: the registry now maps the sid to the
new channel, a subsequently routed MSG for that sid lands only in the new
channel, and the previous channel is left exactly as it was — it receives
neither the message nor a CLOSE sentinel. -/
theorem for_sid_replaces_sink (st : MuxState) (cmd : Subscribe) (oldId : Nat) (msg : Message)
    (hwf : ∀ p ∈ st.subs, p.2 < st.nextId)
    (hold : alookup st.subs cmd.sid = some oldId)
    (hm : msg.sid = cmd.sid) :
    alookup (for_sid st cmd).1.subs cmd.sid = some (for_sid st cmd).2 ∧
    oldId ≠ (for_sid st cmd).2 ∧
    (demux_op (for_sid st cmd).1 (Op.MSG msg)).1.queues (for_sid st cmd).2 =
      [SinkMessage.Message msg] ∧
    (demux_op (for_sid st cmd).1 (Op.MSG msg)).1.queues oldId = st.queues oldId := by
  have hlt : oldId < st.nextId := hwf (cmd.sid, oldId) (alookup_mem _ _ _ hold)
  have hne : oldId ≠ st.nextId := by omega
  have hlook : alookup (for_sid st cmd).1.subs cmd.sid = some st.nextId := by
    show alookup (ainsert st.subs cmd.sid st.nextId) cmd.sid = some st.nextId
    exact alookup_ainsert_self _ _ _
  have hlookm : alookup (for_sid st cmd).1.subs msg.sid = some st.nextId := by
    rw [hm]; exact hlook
  have hroute : demux_op (for_sid st cmd).1 (Op.MSG msg) =
      ({ (for_sid st cmd).1 with
         queues := fun j =>
           if j = st.nextId then (for_sid st cmd).1.queues j ++ [SinkMessage.Message msg]
           else (for_sid st cmd).1.queues j }, none) := by
    simp [demux_op, hlookm]
  refine ⟨hlook, hne, ?_, ?_⟩
  · rw [hroute]
    show (if st.nextId = st.nextId
        then (for_sid st cmd).1.queues st.nextId ++ [SinkMessage.Message msg]
        else (for_sid st cmd).1.queues st.nextId) = [SinkMessage.Message msg]
    simp [for_sid]
  · rw [hroute]
    show (if oldId = st.nextId
        then (for_sid st cmd).1.queues oldId ++ [SinkMessage.Message msg]
        else (for_sid st cmd).1.queues oldId) = st.queues oldId
    simp [for_sid, hne]

/-- Witness for for_sid_replaces_sink: sid s1 bound to channel 0 is rebound
to the fresh channel 1; a routed MSG lands in channel 1 and channel 0 stays
empty. -/
theorem for_sid_replaces_witness :
    alookup (for_sid st0 subCmd1).1.subs subCmd1.sid = some (for_sid st0 subCmd1).2 ∧
    0 ≠ (for_sid st0 subCmd1).2 ∧
    (demux_op (for_sid st0 subCmd1).1 (Op.MSG (msgS1 1))).1.queues (for_sid st0 subCmd1).2 =
      [SinkMessage.Message (msgS1 1)] ∧
    (demux_op (for_sid st0 subCmd1).1 (Op.MSG (msgS1 1))).1.queues 0 = st0.queues 0 :=
  for_sid_replaces_sink st0 subCmd1 0 (msgS1 1) (by decide) (by decide) (by decide)

/-- C2 evidence: submitting a frame while the connection phase is
Disconnected makes start_send return Ok (no error surfaces) while the
transport buffer is left unchanged — the frame is silently dropped, not
held — and poll_flush yields Pending; on the Connected phase the same frame
is appended to the transport buffer. -/
theorem start_send_not_connected_drops :
    sink_start_send NatsConnectionState.Disconnected true true none [] Op.PING =
      ([], none, false) ∧
    sink_poll_flush NatsConnectionState.Disconnected true true (PollResult.Ready none) =
      (PollResult.Pending, false) ∧
    sink_start_send NatsConnectionState.Connected true true none [] Op.PING =
      ([Op.PING], none, false) := by
  decide

end Ratsio
